import Mathlib

/-!
Verification development for the Splitfin UI-audit script (`ui_audit.py`).

The script logs into a web application once, visits a fixed list of routes,
waits for each page to stabilize, screenshots it, extracts a structural
summary of the DOM via an in-page query, and writes a single JSON report.

The embedding models the browser-automation driver as an oracle
environment: each fallible driver call consumes the next oracle outcome
(success, carrying the page URL the browser ends up on, or an exception
carrying a message string).  Orchestration state is threaded explicitly and
every driver call is recorded in an event trace, so that ordering and
"exactly once" properties are provable.  The in-page extraction function is
embedded as a pure function over a document model.
-/

/-- One DOM element, with the attributes the in-page query inspects:
tag name, ARIA `role` attribute, `type` attribute, and visible text. -/
structure Elem where
  tag : String
  role : Option String
  typeAttr : Option String
  innerText : List Char
deriving DecidableEq

/-- A rendered document as seen by the in-page query: `document.title`,
`window.location.href`, `document.body.innerText` (empty when there is no
body), and the element list in document order. -/
structure Doc where
  title : String
  href : String
  bodyText : List Char
  elems : List Elem
deriving DecidableEq

/-- Whitespace as removed by the JavaScript `trim()` on the ends of a
string (the character set relevant to this development). -/
def isWsChar (c : Char) : Bool :=
  c == ' ' || c == '\t' || c == '\n' || c == '\r'

/-- JavaScript `trim()`: drop whitespace from both ends. -/
def trimWs (l : List Char) : List Char :=
  ((l.dropWhile isWsChar).reverse.dropWhile isWsChar).reverse

/-- JavaScript `.replace(/\n+/g, '\n')`: collapse every run of consecutive
newline characters to a single newline. -/
def collapseNN : List Char → List Char
  | [] => []
  | [c] => [c]
  | a :: b :: rest =>
    if a = '\n' ∧ b = '\n' then collapseNN (b :: rest)
    else a :: collapseNN (b :: rest)

/-- Field `textSummary` of `capture_structure`'s in-page query:
`bodyText.substring(0, 2000).replace(/\n+/g, '\n').trim()`. -/
def mkTextSummary (bodyText : List Char) : List Char :=
  trimWs (collapseNN (bodyText.take 2000))

/-- The selector `'button, [role="button"]'` used to collect button
labels (note: it does not include `input[type="submit"]`, unlike the
`buttons` element-count selector). -/
def isLabelSource (e : Elem) : Bool :=
  e.tag == "BUTTON" || e.role == some "button"

/-- Field `buttonLabels` of `capture_structure`'s in-page query: visible text
of `'button, [role="button"]'` matches, trimmed, filtered to
`0 < length < 80`, capped at 30 entries. -/
def mkButtonLabels (d : Doc) : List (List Char) :=
  (((d.elems.filter isLabelSource).map (fun e => trimWs e.innerText)).filter
      (fun t => decide (0 < t.length) && decide (t.length < 80))).take 30

/-- The fields of the in-page query result that the verified claims are
about.  The remaining fields of the JavaScript object (element counts,
headings, sidebar items) are simple count/map projections of the same
document and are not referenced by any claim. -/
structure Summary where
  title : String
  url : String
  textSummary : List Char
  buttonLabels : List (List Char)
deriving DecidableEq

/-- The pure in-page query of `capture_structure` (the function passed to
`page.evaluate`), as a function of the rendered document. -/
def extract_summary (d : Doc) : Summary :=
  { title := d.title
    url := d.href
    textSummary := mkTextSummary d.bodyText
    buttonLabels := mkButtonLabels d }

/-- Follows the spec's words for the button-label collection ("native
buttons, ARIA `role=button`, submit inputs"), to be compared with
`mkButtonLabels`, which is translated from the source selector. -/
def specButtonLabels (d : Doc) : List (List Char) :=
  (((d.elems.filter (fun e =>
        e.tag == "BUTTON" || e.role == some "button" ||
          (e.tag == "INPUT" && e.typeAttr == some "submit"))).map
      (fun e => trimWs e.innerText)).filter
      (fun t => decide (0 < t.length) && decide (t.length < 80))).take 30

/-! ## Orchestration model -/

/-- Configuration constants from the script. -/
def SITE : String := "https://splitfin.co.uk"

/-- Output directory for screenshots. -/
def SCREENSHOTS_DIR : String := "./screenshots"

/-- Viewport dimensions. -/
def VIEWPORT : Nat × Nat := (1440, 900)

/-- One configured target route: `{path, name}`. -/
structure Route where
  path : String
  name : String
deriving DecidableEq

/-- The configured `PAGES` list. -/
def PAGES : List Route :=
  [ { path := "/dashboard",          name := "01-dashboard" },
    { path := "/orders",             name := "02-orders" },
    { path := "/order/10130",        name := "03-order-detail" },
    { path := "/customers",          name := "04-customers" },
    { path := "/customers/1",        name := "05-customer-detail" },
    { path := "/enquiries",          name := "06-enquiries" },
    { path := "/inventory/products", name := "07-products" },
    { path := "/settings/general",   name := "08-settings" } ]

/-- A driver call recorded in the run trace.  Each constructor corresponds
to one browser-capability call made by the script, with its arguments. -/
inductive Event where
  | nav (url : String) (timeout : Nat)
  | loadState (state : String) (timeout : Nat)
  | sleep (ms : Nat)
  | shot (path : String)
  | fill (sel : String) (val : String)
  | click (sel : String)
  | extract
  | writeReport
  | close
  | stop
deriving DecidableEq

/-- Outcome of one fallible driver call: success (carrying the page URL
the browser is on afterwards — navigations and load-state waits may land
anywhere, including on a login redirect) or a raised exception carrying
its message text (which may be empty: `str(e)` of a Python exception is
not guaranteed non-empty). -/
inductive Outcome where
  | ok (url : String)
  | err (msg : String)
deriving DecidableEq

/-- Orchestrator-visible browser state: a counter of fallible driver
calls made so far (indexing into the oracle), the current page URL, and
the trace of driver calls. -/
structure M where
  k : Nat
  url : String
  evs : List Event
deriving DecidableEq

/-- The external environment (browser, site, clock): the outcome of the
`i`-th fallible driver call, the rendered document at the moment of the
`i`-th call (used when that call is the extraction query), and the
report timestamp. -/
structure Env where
  out : Nat → Outcome
  doc : Nat → Doc
  time : String

/-- Run one fallible, URL-affecting driver call (navigation, load-state
wait, click) and continue with `kont` on success; an exception aborts the
enclosing `try` block with the exception's message. -/
def bindPrim {α : Type} (env : Env) (ev : Event) (m : M)
    (kont : M → M × Except String α) : M × Except String α :=
  match env.out m.k with
  | .err e => ({ k := m.k + 1, url := m.url, evs := m.evs ++ [ev] }, .error e)
  | .ok u => kont { k := m.k + 1, url := u, evs := m.evs ++ [ev] }

/-- Run one fallible driver call that does not move the page (screenshot,
form fill) and continue with `kont` on success. -/
def bindPrimRO {α : Type} (env : Env) (ev : Event) (m : M)
    (kont : M → M × Except String α) : M × Except String α :=
  match env.out m.k with
  | .err e => ({ k := m.k + 1, url := m.url, evs := m.evs ++ [ev] }, .error e)
  | .ok _ => kont { k := m.k + 1, url := m.url, evs := m.evs ++ [ev] }

/-- Call `page.wait_for_timeout(ms)`: unconditional settle delay, never
raises, does not consume an oracle outcome. -/
def sleep (ms : Nat) (m : M) : M :=
  { m with evs := m.evs ++ [.sleep ms] }

/-- Call `page.wait_for_load_state(state, timeout)` wrapped in
`try: ... except Exception: pass`: the outcome is consumed and the call
recorded, but a timeout exception is swallowed — the result is a plain
state, never an error.  On success the page may have moved (the app can
redirect while the wait is in progress). -/
def tryLoad (env : Env) (state : String) (timeout : Nat) (m : M) : M :=
  { k := m.k + 1
    url := match env.out m.k with | .ok u => u | .err _ => m.url
    evs := m.evs ++ [.loadState state timeout] }

/-- Function `wait_stable(page, timeout)`: best-effort `networkidle` wait, then
best-effort `domcontentloaded` wait (timeout 5000), each with swallowed
exceptions, then a fixed 2000 ms settle delay. -/
def wait_stable (env : Env) (timeout : Nat) (m : M) : M :=
  sleep 2000 (tryLoad env "domcontentloaded" 5000 (tryLoad env "networkidle" timeout m))

/-- Function `login(page)`: navigate to the site root, stabilize, screenshot the
login state, fill the agent id and PIN, submit, stabilize, extra delay,
and return the resulting page URL.  Any raised exception propagates to
the caller. -/
def login (env : Env) (m0 : M) : M × Except String String :=
  bindPrim env (.nav SITE 30000) m0 fun m1 =>
  let m2 := wait_stable env 10000 m1
  bindPrimRO env (.shot (SCREENSHOTS_DIR ++ "/00-login.png")) m2 fun m3 =>
  bindPrimRO env (.fill "#agentId" "matt") m3 fun m4 =>
  bindPrimRO env (.fill "#pin" "1234") m4 fun m5 =>
  bindPrim env (.click "button[type=\"submit\"]") m5 fun m6 =>
  let m7 := wait_stable env 15000 m6
  let m8 := sleep 2000 m7
  (m8, .ok m8.url)

/-- Function `capture_structure(page)`: run the read-only in-page query; on
success the result is the pure extraction applied to the document the
environment presents at that moment; the page URL does not change. -/
def capture_structure (env : Env) (m : M) : M × Except String Summary :=
  ({ k := m.k + 1, url := m.url, evs := m.evs ++ [.extract] },
   match env.out m.k with
   | .ok _ => .ok (extract_summary (env.doc m.k))
   | .err e => .error e)

/-- Prefix test used by the Python substring containment check. -/
def startsList : List Char → List Char → Bool
  | [], _ => true
  | _ :: _, [] => false
  | a :: pa, b :: pb => a == b && startsList pa pb

/-- Substring occurrence: does `pat` occur contiguously in `s`. -/
def hasSub (pat : List Char) : List Char → Bool
  | [] => startsList pat []
  | c :: rest => startsList pat (c :: rest) || hasSub pat rest

/-- Python `'login' in s` for a URL or path string. -/
def containsLogin (s : String) : Bool :=
  hasSub ("login".toList) s.toList

/-- Lines 124–128 of the script: if the reached URL indicates a login
surface while the intended path does not, re-login, re-navigate to the
original target URL, and re-run stabilization — once, with no further
session check.  Otherwise do nothing. -/
def recover (env : Env) (url : String) (pg : Route) (m2 : M) :
    M × Except String Unit :=
  if containsLogin m2.url && !containsLogin pg.path then
    match login env m2 with
    | (m3, .error e) => (m3, .error e)
    | (m3, .ok _u) =>
      bindPrim env (.nav url 20000) m3 fun m4 => (wait_stable env 10000 m4, .ok ())
  else (m2, .ok ())

/-- The tail of the per-route `try` block after the session check:
full-page screenshot to the route's deterministic path, then extraction. -/
def route_tail (env : Env) (pg : Route) (mz : M) : M × Except String Summary :=
  bindPrimRO env (.shot (SCREENSHOTS_DIR ++ "/" ++ pg.name ++ ".png")) mz fun m5 =>
  capture_structure env m5

/-- The per-route `try` block after navigation and stabilization: session
check with at-most-once recovery, then screenshot and extraction. -/
def route_core (env : Env) (pg : Route) (m2 : M) : M × Except String Summary :=
  match recover env (SITE ++ pg.path) pg m2 with
  | (mz, .error e) => (mz, .error e)
  | (mz, .ok _) => route_tail env pg mz

/-- The body of the per-route `try` block: navigate, stabilize, session
check with at-most-once recovery, screenshot, extract. -/
def route_attempt (env : Env) (pg : Route) (m0 : M) : M × Except String Summary :=
  bindPrim env (.nav (SITE ++ pg.path) 20000) m0 fun m1 =>
  route_core env pg (wait_stable env 10000 m1)

/-- One per-route result as appended to `results`: the success dict
(name, intended path, actual URL, screenshot path, extracted summary, no
error key) or the failure dict (name, intended path, error message
only).  `Option` fields mirror the presence or absence of the dict keys. -/
structure RouteResult where
  name : String
  intendedPath : String
  actualUrl : Option String
  screenshot : Option String
  summary : Option Summary
  error : Option String
deriving DecidableEq

/-- The failure dict `{'name': ..., 'intended_path': ..., 'error': str(e)}`. -/
def routeFail (pg : Route) (e : String) : RouteResult :=
  { name := pg.name, intendedPath := pg.path, actualUrl := none,
    screenshot := none, summary := none, error := some e }

/-- One loop iteration of `main`: run the route's `try` block; any
exception raised inside it is caught here and converted into a failure
entry; otherwise append the success entry (whose `actual_url` is the page
URL read after extraction). -/
def process_route (env : Env) (pg : Route) (m0 : M) : M × RouteResult :=
  match route_attempt env pg m0 with
  | (mf, .error e) => (mf, routeFail pg e)
  | (mf, .ok s) =>
    (mf, { name := pg.name, intendedPath := pg.path, actualUrl := some mf.url,
           screenshot := some (SCREENSHOTS_DIR ++ "/" ++ pg.name ++ ".png"),
           summary := some s, error := none })

/-- The `for pg in PAGES` loop: process each route in order, threading
the browser state and accumulating one result per route. -/
def run_routes (env : Env) : List Route → M → M × List RouteResult
  | [], m => (m, [])
  | pg :: rest, m =>
    let pr := process_route env pg m
    let rr := run_routes env rest pr.1
    (rr.1, pr.2 :: rr.2)

/-- Unconditional trace append for the report write: file
output is out of scope (treated as an external capability that does not
raise), so the write is recorded as a single unconditional event. -/
def primOk (ev : Event) (m : M) : M :=
  { m with evs := m.evs ++ [ev] }

/-- The assembled audit report. -/
structure Report where
  site : String
  viewport : Nat × Nat
  timestamp : String
  pages : List RouteResult
deriving DecidableEq

/-- The body of the `with sync_playwright()` block of `main`: initial
mandatory login (whose exception, if any, propagates and aborts the run),
the route loop, report assembly and write, and `browser.close()`. -/
def with_body (env : Env) (m0 : M) : M × Except String Report :=
  match login env m0 with
  | (m1, .error e) => (m1, .error e)
  | (m1, .ok _u) =>
    let pr := run_routes env PAGES m1
    let m3 := primOk .writeReport pr.1
    bindPrim env .close m3 fun m4 =>
      (m4, .ok { site := SITE, viewport := VIEWPORT, timestamp := env.time,
                 pages := pr.2 })

/-- Function `main` under `with sync_playwright() as p`: the context manager's
exit handler runs on every exit path — normal return or propagating
exception — and stops the driver, which releases the browser session
(the scoped-acquisition semantics of the Python `with` statement; the
driver-side effect of `stop` is part of the assumed browser capability). -/
def run_audit (env : Env) (m0 : M) : M × Except String Report :=
  let br := with_body env m0
  (primOk .stop br.1, br.2)

/-! ## Expected traces and concrete test fixtures -/

/-- The driver calls `login` makes, in order, when nothing raises (an
aborted login produces a prefix of this list). -/
def loginEvents : List Event :=
  [ .nav SITE 30000,
    .loadState "networkidle" 10000,
    .loadState "domcontentloaded" 5000,
    .sleep 2000,
    .shot (SCREENSHOTS_DIR ++ "/00-login.png"),
    .fill "#agentId" "matt",
    .fill "#pin" "1234",
    .click "button[type=\"submit\"]",
    .loadState "networkidle" 15000,
    .loadState "domcontentloaded" 5000,
    .sleep 2000,
    .sleep 2000 ]

/-- The driver calls of one route iteration that detects session loss and
recovers: navigation and stabilization, one full re-login, one
re-navigation to the original target URL with stabilization, then
screenshot and extraction — with no second session check. -/
def recoveryTrace (pg : Route) : List Event :=
  [ .nav (SITE ++ pg.path) 20000,
    .loadState "networkidle" 10000,
    .loadState "domcontentloaded" 5000,
    .sleep 2000 ] ++ loginEvents ++
  [ .nav (SITE ++ pg.path) 20000,
    .loadState "networkidle" 10000,
    .loadState "domcontentloaded" 5000,
    .sleep 2000,
    .shot (SCREENSHOTS_DIR ++ "/" ++ pg.name ++ ".png"),
    .extract ]

/-- Initial browser state: no calls made, blank page, empty trace. -/
def mInit : M := { k := 0, url := "", evs := [] }

/-- A concrete authenticated-page URL (not a login surface). -/
def dashUrl : String := "https://splitfin.co.uk/dashboard"

/-- A concrete document with one labelled native button. -/
def doc0 : Doc :=
  { title := "Dashboard", href := dashUrl,
    bodyText := String.toList "Hello\nWorld",
    elems := [{ tag := "BUTTON", role := none, typeAttr := none,
                innerText := String.toList "  OK  " }] }

/-- A concrete document whose only button-like element is a submit input
with visible text. -/
def docSubmit : Doc :=
  { title := "", href := "", bodyText := [],
    elems := [{ tag := "INPUT", role := none, typeAttr := some "submit",
                innerText := String.toList "Go" }] }

/-- An environment in which every driver call succeeds and always lands
on the authenticated dashboard page. -/
def env0 : Env :=
  { out := fun _ => .ok dashUrl, doc := fun _ => doc0,
    time := "2026-02-03 04:05:06" }

/-- An environment in which every driver call raises. -/
def envBad : Env :=
  { out := fun _ => .err "net::ERR_CONNECTION_REFUSED", doc := fun _ => doc0,
    time := "" }

/-- An environment in which every driver call raises an exception whose
message text is empty. -/
def envEmptyMsg : Env :=
  { out := fun _ => .err "", doc := fun _ => doc0, time := "" }

/-- Oracle URLs for the session-loss scenario: the stabilization after the
first navigation lands on a login redirect; everything else lands on the
authenticated dashboard. -/
def usLost : Nat → String :=
  fun i => if i = 2 then "https://splitfin.co.uk/login?next=%2Fdashboard" else dashUrl

/-- The session-loss environment: every call succeeds, with URLs given by
`usLost`. -/
def envLost : Env :=
  { out := fun i => .ok (usLost i), doc := fun _ => doc0, time := "" }

/-- An environment in which navigation, stabilization and the screenshot
succeed (landing on the authenticated dashboard) but the extraction query
— the fifth fallible call — raises. -/
def envExtFail : Env :=
  { out := fun i => if i = 4 then .err "Evaluation failed: boom" else .ok dashUrl,
    doc := fun _ => doc0, time := "" }

/-- The first configured route. -/
def pg0 : Route := { path := "/dashboard", name := "01-dashboard" }

/-- The run's report in the all-success environment (used to discharge
the completed-run hypothesis of the pages-per-route claim at a concrete
input). -/
def report0 : Report :=
  match (with_body env0 mInit).2 with
  | .ok r => r
  | .error _ => { site := "", viewport := (0, 0), timestamp := "", pages := [] }

/-- State extension: the trace of the second state is the trace of the
first plus appended events (driver state only moves forward). -/
def TraceExt (m m' : M) : Prop := ∃ l, m'.evs = m.evs ++ l

/-! ## Extractor lemmas -/

/-- Collapsing newline runs never removes the head of a list. -/
theorem collapseNN_cons : ∀ (l : List Char) (b : Char), ∃ t, collapseNN (b :: l) = b :: t := by
  intro l
  induction l with
  | nil => intro b; exact ⟨[], rfl⟩
  | cons c r ih =>
    intro b
    by_cases h : b = '\n' ∧ c = '\n'
    · obtain ⟨t, ht⟩ := ih c
      refine ⟨t, ?_⟩
      rw [show collapseNN (b :: c :: r) = collapseNN (c :: r) by simp [collapseNN, h], ht,
        h.1, h.2]
    · exact ⟨collapseNN (c :: r), by simp [collapseNN, h]⟩

/-- After collapsing, no two consecutive newline characters remain. -/
theorem collapseNN_chain :
    ∀ l : List Char, List.Chain' (fun a b => ¬(a = '\n' ∧ b = '\n')) (collapseNN l) := by
  intro l
  induction l with
  | nil => simp [collapseNN]
  | cons a t ih =>
    cases t with
    | nil => simp [collapseNN]
    | cons b r =>
      by_cases h : a = '\n' ∧ b = '\n'
      · rw [show collapseNN (a :: b :: r) = collapseNN (b :: r) by simp [collapseNN, h]]
        exact ih
      · obtain ⟨t', ht'⟩ := collapseNN_cons r b
        rw [show collapseNN (a :: b :: r) = a :: collapseNN (b :: r) by
          simp [collapseNN, h]]
        rw [ht']
        rw [ht'] at ih
        exact List.chain'_cons.2 ⟨h, ih⟩

/-- Collapsing newline runs does not lengthen a list. -/
theorem collapseNN_length : ∀ l : List Char, (collapseNN l).length ≤ l.length := by
  intro l
  induction l with
  | nil => simp [collapseNN]
  | cons a t ih =>
    cases t with
    | nil => simp [collapseNN]
    | cons b r =>
      by_cases h : a = '\n' ∧ b = '\n'
      · rw [show collapseNN (a :: b :: r) = collapseNN (b :: r) by simp [collapseNN, h]]
        exact le_trans ih (by simp)
      · rw [show collapseNN (a :: b :: r) = a :: collapseNN (b :: r) by
          simp [collapseNN, h]]
        simpa using ih

/-- Trimming yields a contiguous slice of the input. -/
theorem trimWs_slice_of (l : List Char) : trimWs l <:+: l := by
  obtain ⟨s, hs⟩ := List.dropWhile_suffix (l := l) isWsChar
  obtain ⟨t, ht⟩ := List.dropWhile_suffix (l := (l.dropWhile isWsChar).reverse) isWsChar
  refine ⟨s, t.reverse, ?_⟩
  have hpre : trimWs l ++ t.reverse = l.dropWhile isWsChar := by
    unfold trimWs
    rw [← List.reverse_append, ht, List.reverse_reverse]
  rw [List.append_assoc, hpre, hs]

/-- C3: the extractor's text excerpt is produced by truncating the body
text to at most 2000 characters, then collapsing every run of consecutive
newlines to a single newline, then trimming leading and trailing
whitespace; consequently its length is at most 2000 and it contains no
two consecutive newline characters. -/
theorem c3_text_excerpt (d : Doc) :
    (extract_summary d).textSummary =
      trimWs (collapseNN (d.bodyText.take 2000)) ∧
    (extract_summary d).textSummary.length ≤ 2000 ∧
    List.Chain' (fun a b => ¬(a = '\n' ∧ b = '\n'))
      (extract_summary d).textSummary := by
  refine ⟨rfl, ?_, ?_⟩
  · have h1 := (trimWs_slice_of (collapseNN (d.bodyText.take 2000))).length_le
    have h2 := collapseNN_length (d.bodyText.take 2000)
    have h3 : (d.bodyText.take 2000).length ≤ 2000 :=
      List.length_take_le 2000 d.bodyText
    show (trimWs (collapseNN (d.bodyText.take 2000))).length ≤ 2000
    omega
  · exact List.Chain'.infix (collapseNN_chain _) (trimWs_slice_of _)

/-- C4 (amended): the button-label sequence collects the trimmed visible
text of native buttons and ARIA role=button elements (submit inputs are
not part of the label selector), keeps only entries that are non-empty
and under 80 characters, and caps the result at 30 entries; therefore
every entry has length in [1, 80] and the list length is at most 30. -/
theorem c4_button_labels (d : Doc) :
    (extract_summary d).buttonLabels =
      (((d.elems.filter isLabelSource).map (fun e => trimWs e.innerText)).filter
        (fun t => decide (0 < t.length) && decide (t.length < 80))).take 30 ∧
    (∀ t ∈ (extract_summary d).buttonLabels, 1 ≤ t.length ∧ t.length ≤ 80) ∧
    (extract_summary d).buttonLabels.length ≤ 30 := by
  refine ⟨rfl, ?_, ?_⟩
  · intro t ht
    have ht' := List.mem_of_mem_take ht
    have hp := (List.mem_filter.1 ht').2
    simp only [Bool.and_eq_true, decide_eq_true_eq] at hp
    omega
  · exact List.length_take_le 30 _

/-- C4 counterexample: on a document whose only button-like element is a
submit input with visible text "Go", the script's label collection is
empty, while the claimed collection (including submit inputs) contains
"Go" — the label selector does not include submit inputs. -/
theorem c4_counterexample :
    (extract_summary docSubmit).buttonLabels = [] ∧
    specButtonLabels docSubmit = [String.toList "Go"] := by
  constructor <;> rfl

/-- Witness for C4 at a concrete document and label. -/
theorem c4_button_labels_witness :
    String.toList "OK" ∈ (extract_summary doc0).buttonLabels ∧
    (1 ≤ (String.toList "OK").length ∧ (String.toList "OK").length ≤ 80) :=
  ⟨by decide, (c4_button_labels doc0).2.1 _ (by decide)⟩

/-! ## Orchestration lemmas -/

/-- The stability wait records both load-state attempts and the settle
delay, in order, whatever the outcomes. -/
theorem wait_stable_evs (env : Env) (t : Nat) (m : M) :
    (wait_stable env t m).evs =
      m.evs ++ [.loadState "networkidle" t, .loadState "domcontentloaded" 5000,
        .sleep 2000] := by
  simp [wait_stable, tryLoad, sleep]

/-- The stability wait consumes exactly two oracle outcomes. -/
theorem wait_stable_k (env : Env) (t : Nat) (m : M) :
    (wait_stable env t m).k = m.k + 2 := rfl

/-- A load-state wait in an all-success environment. -/
theorem tryLoad_ok (env : Env) (us : Nat → String)
    (hok : ∀ i, env.out i = .ok (us i)) (state : String) (t : Nat) (m : M) :
    tryLoad env state t m =
      { k := m.k + 1, url := us m.k, evs := m.evs ++ [.loadState state t] } := by
  simp [tryLoad, hok]

/-- The stability wait in an all-success environment: the page ends on
the URL delivered by the second load-state wait. -/
theorem wait_stable_ok (env : Env) (us : Nat → String)
    (hok : ∀ i, env.out i = .ok (us i)) (t : Nat) (m : M) :
    wait_stable env t m =
      { k := m.k + 2, url := us (m.k + 1),
        evs := m.evs ++ [.loadState "networkidle" t,
          .loadState "domcontentloaded" 5000, .sleep 2000] } := by
  simp [wait_stable, tryLoad_ok env us hok, sleep]

/-- Logging in in an all-success environment: succeeds after consuming nine
oracle outcomes, recording exactly `loginEvents`, and returns the URL the
browser is on after the final load-state wait. -/
theorem login_ok (env : Env) (us : Nat → String)
    (hok : ∀ i, env.out i = .ok (us i)) (m0 : M) :
    login env m0 =
      ({ k := m0.k + 9, url := us (m0.k + 8), evs := m0.evs ++ loginEvents },
       .ok (us (m0.k + 8))) := by
  simp [login, bindPrim, bindPrimRO, hok, wait_stable_ok env us hok, sleep,
    loginEvents]

/-- The extraction query in an all-success environment returns the pure
extraction of the document presented at that moment. -/
theorem capture_ok (env : Env) (us : Nat → String)
    (hok : ∀ i, env.out i = .ok (us i)) (m : M) :
    capture_structure env m =
      ({ k := m.k + 1, url := m.url, evs := m.evs ++ [.extract] },
       .ok (extract_summary (env.doc m.k))) := by
  simp [capture_structure, hok]

/-- C5: for a route whose reached URL indicates a login surface while the
intended path does not, the orchestrator recovers exactly once — one
re-login, one re-navigation to the original target URL, one further
stabilization, and no second session check (the trace is exactly
`recoveryTrace`) — then proceeds to screenshot and extraction, and the
route is recorded as a success whatever URL the recovery ends on
(including a still-login URL). -/
theorem c5_session_recovery (env : Env) (us : Nat → String) (pg : Route)
    (m0 : M) (hok : ∀ i, env.out i = .ok (us i))
    (hlost : containsLogin (us (m0.k + 2)) = true)
    (hpath : containsLogin pg.path = false) :
    process_route env pg m0 =
      ({ k := m0.k + 17, url := us (m0.k + 14),
         evs := m0.evs ++ recoveryTrace pg },
       { name := pg.name, intendedPath := pg.path,
         actualUrl := some (us (m0.k + 14)),
         screenshot := some (SCREENSHOTS_DIR ++ "/" ++ pg.name ++ ".png"),
         summary := some (extract_summary (env.doc (m0.k + 16))),
         error := none }) := by
  have hlost' : containsLogin (us (m0.k + 1 + 1)) = true := hlost
  simp [process_route, route_attempt, route_core, route_tail, bindPrim,
    bindPrimRO, hok, wait_stable_ok env us hok, recover, hpath, hlost',
    login_ok env us hok, capture_structure, recoveryTrace, loginEvents]

/-- Whatever the environment does, `login` appends to the trace a prefix
of its straight-line call sequence: in particular it performs no route
navigation, no extraction, and no report write. -/
theorem login_evs (env : Env) (m0 : M) :
    ∃ l, ((login env m0).1).evs = m0.evs ++ l ∧ l ⊆ loginEvents := by
  simp only [login, bindPrim, bindPrimRO]
  split
  · exact ⟨[.nav SITE 30000], by simp, by decide⟩
  · split
    · refine ⟨[.nav SITE 30000, .loadState "networkidle" 10000,
        .loadState "domcontentloaded" 5000, .sleep 2000,
        .shot (SCREENSHOTS_DIR ++ "/00-login.png")], ?_, by decide⟩
      simp [wait_stable_evs]
    · split
      · refine ⟨[.nav SITE 30000, .loadState "networkidle" 10000,
          .loadState "domcontentloaded" 5000, .sleep 2000,
          .shot (SCREENSHOTS_DIR ++ "/00-login.png"),
          .fill "#agentId" "matt"], ?_, by decide⟩
        simp [wait_stable_evs]
      · split
        · refine ⟨[.nav SITE 30000, .loadState "networkidle" 10000,
            .loadState "domcontentloaded" 5000, .sleep 2000,
            .shot (SCREENSHOTS_DIR ++ "/00-login.png"),
            .fill "#agentId" "matt", .fill "#pin" "1234"], ?_, by decide⟩
          simp [wait_stable_evs]
        · split
          · refine ⟨[.nav SITE 30000, .loadState "networkidle" 10000,
              .loadState "domcontentloaded" 5000, .sleep 2000,
              .shot (SCREENSHOTS_DIR ++ "/00-login.png"),
              .fill "#agentId" "matt", .fill "#pin" "1234",
              .click "button[type=\"submit\"]"], ?_, by decide⟩
            simp [wait_stable_evs]
          · refine ⟨loginEvents, ?_, List.Subset.refl _⟩
            simp [wait_stable_evs, sleep, loginEvents]

/-- Trace extension is reflexive. -/
theorem TraceExt.refl (m : M) : TraceExt m m := ⟨[], by simp⟩

/-- Trace extension is transitive. -/
theorem TraceExt.trans {a b c : M} (h1 : TraceExt a b) (h2 : TraceExt b c) :
    TraceExt a c := by
  obtain ⟨l1, hl1⟩ := h1
  obtain ⟨l2, hl2⟩ := h2
  exact ⟨l1 ++ l2, by rw [hl2, hl1, List.append_assoc]⟩

/-- Recorded events persist under trace extension. -/
theorem TraceExt.mem {x : Event} {a b : M} (h : TraceExt a b) (hx : x ∈ a.evs) :
    x ∈ b.evs := by
  obtain ⟨l, hl⟩ := h
  rw [hl]
  exact List.mem_append_left _ hx

/-- The stability wait only appends to the trace. -/
theorem ext_wait_stable (env : Env) (t : Nat) (m : M) :
    TraceExt m (wait_stable env t m) :=
  ⟨_, wait_stable_evs env t m⟩

/-- Logging in only appends to the trace. -/
theorem ext_login (env : Env) (m : M) : TraceExt m ((login env m).1) := by
  obtain ⟨l, hl, -⟩ := login_evs env m
  exact ⟨l, hl⟩

/-- The extraction query only appends to the trace. -/
theorem ext_capture (env : Env) (m : M) :
    TraceExt m ((capture_structure env m).1) :=
  ⟨[.extract], Eq.refl _⟩

/-- Session-loss recovery only appends to the trace. -/
theorem ext_recover (env : Env) (url : String) (pg : Route) (m : M) :
    TraceExt m ((recover env url pg m).1) := by
  unfold recover
  split
  · split
    · next m3 e heq =>
      have h3 : (login env m).1 = m3 := by rw [heq]
      exact h3 ▸ ext_login env m
    · next m3 u heq =>
      have h3 : (login env m).1 = m3 := by rw [heq]
      refine TraceExt.trans (h3 ▸ ext_login env m) ?_
      simp only [bindPrim]
      split
      · exact ⟨_, Eq.refl _⟩
      · exact TraceExt.trans ⟨[Event.nav url 20000], Eq.refl _⟩
          (ext_wait_stable env 10000 _)
  · exact TraceExt.refl m

/-- The screenshot-and-extract tail only appends to the trace. -/
theorem ext_route_tail (env : Env) (pg : Route) (mz : M) :
    TraceExt mz ((route_tail env pg mz).1) := by
  simp only [route_tail, bindPrimRO]
  split
  · exact ⟨_, Eq.refl _⟩
  · refine TraceExt.trans
      (⟨[Event.shot (SCREENSHOTS_DIR ++ "/" ++ pg.name ++ ".png")], rfl⟩ :
        TraceExt mz
          { k := mz.k + 1, url := mz.url,
            evs := mz.evs ++
              [Event.shot (SCREENSHOTS_DIR ++ "/" ++ pg.name ++ ".png")] })
      (ext_capture env _)

/-- The session check with recovery, screenshot and extraction only
appends to the trace. -/
theorem ext_route_core (env : Env) (pg : Route) (m2 : M) :
    TraceExt m2 ((route_core env pg m2).1) := by
  unfold route_core
  split
  · next mz e heq =>
    have hz : (recover env (SITE ++ pg.path) pg m2).1 = mz := by rw [heq]
    exact hz ▸ ext_recover env (SITE ++ pg.path) pg m2
  · next mz u2 heq =>
    have hz : (recover env (SITE ++ pg.path) pg m2).1 = mz := by rw [heq]
    exact TraceExt.trans (hz ▸ ext_recover env (SITE ++ pg.path) pg m2)
      (ext_route_tail env pg mz)

/-- A route attempt only appends to the trace. -/
theorem ext_route_attempt (env : Env) (pg : Route) (m : M) :
    TraceExt m ((route_attempt env pg m).1) := by
  simp only [route_attempt, bindPrim]
  split
  · exact ⟨_, Eq.refl _⟩
  · next u hequ =>
    refine TraceExt.trans (TraceExt.trans
      (⟨[Event.nav (SITE ++ pg.path) 20000], rfl⟩ :
        TraceExt m
          { k := m.k + 1, url := u,
            evs := m.evs ++ [Event.nav (SITE ++ pg.path) 20000] })
      (ext_wait_stable env 10000 _)) (ext_route_core env pg _)

/-- Every route attempt records its navigation to the target URL, even
when the navigation (or anything after it) raises. -/
theorem route_attempt_nav_mem (env : Env) (pg : Route) (m : M) :
    Event.nav (SITE ++ pg.path) 20000 ∈ ((route_attempt env pg m).1).evs := by
  simp only [route_attempt, bindPrim]
  split
  · simp
  · next u hequ =>
    have h0 : Event.nav (SITE ++ pg.path) 20000 ∈
        (M.mk (m.k + 1) u (m.evs ++ [Event.nav (SITE ++ pg.path) 20000])).evs := by
      simp
    exact TraceExt.mem
      (TraceExt.trans (ext_wait_stable env 10000 _) (ext_route_core env pg _)) h0

/-- Catching the route's exception does not change the browser state. -/
theorem process_route_fst (env : Env) (pg : Route) (m : M) :
    (process_route env pg m).1 = (route_attempt env pg m).1 := by
  rcases h : route_attempt env pg m with ⟨mf, r⟩
  cases r <;> simp [process_route, h]

/-- Route processing only appends to the trace. -/
theorem ext_process_route (env : Env) (pg : Route) (m : M) :
    TraceExt m ((process_route env pg m).1) := by
  rw [process_route_fst]
  exact ext_route_attempt env pg m

/-- Every recorded result carries the route's configured name. -/
theorem process_route_name (env : Env) (pg : Route) (m : M) :
    ((process_route env pg m).2).name = pg.name := by
  rcases h : route_attempt env pg m with ⟨mf, r⟩
  cases r <;> simp [process_route, h, routeFail]

/-- Route processing records its navigation attempt in the trace. -/
theorem process_route_nav_mem (env : Env) (pg : Route) (m : M) :
    Event.nav (SITE ++ pg.path) 20000 ∈ ((process_route env pg m).1).evs := by
  rw [process_route_fst]
  exact route_attempt_nav_mem env pg m

/-- The route loop only appends to the trace. -/
theorem ext_run_routes (env : Env) :
    ∀ (routes : List Route) (m : M), TraceExt m ((run_routes env routes m).1) := by
  intro routes
  induction routes with
  | nil => intro m; exact TraceExt.refl m
  | cons pg rest ih =>
    intro m
    exact TraceExt.trans (ext_process_route env pg m) (ih _)

/-- The route loop produces exactly one result per route, in order, each
carrying its route's name. -/
theorem run_routes_names (env : Env) :
    ∀ (routes : List Route) (m : M),
      ((run_routes env routes m).2).map RouteResult.name =
        routes.map Route.name := by
  intro routes
  induction routes with
  | nil => intro m; simp [run_routes]
  | cons pg rest ih =>
    intro m
    simp [run_routes, process_route_name, ih]

/-- The route loop records a navigation attempt for every configured
route, whatever happened to earlier routes. -/
theorem run_routes_nav_mem (env : Env) :
    ∀ (routes : List Route) (m : M) (pg : Route), pg ∈ routes →
      Event.nav (SITE ++ pg.path) 20000 ∈ ((run_routes env routes m).1).evs := by
  intro routes
  induction routes with
  | nil => intro m pg h; cases h
  | cons q rest ih =>
    intro m pg h
    rcases List.mem_cons.1 h with rfl | h2
    · exact TraceExt.mem (ext_run_routes env rest _) (process_route_nav_mem env pg m)
    · exact ih _ pg h2

/-- When the initial login succeeds, the run's trace is the route loop's
trace followed by the report write and the close call (whether or not the
close call itself raises). -/
theorem with_body_evs_ok (env : Env) (m0 m1 : M) (u : String)
    (h : login env m0 = (m1, .ok u)) :
    ((with_body env m0).1).evs =
      ((run_routes env PAGES m1).1).evs ++ [Event.writeReport, Event.close] := by
  simp only [with_body, h]
  simp only [bindPrim]
  split
  · simp [primOk]
  · simp [primOk]

/-- C1: for every run that completes, the report's `pages` sequence has
exactly one entry per configured route, in configuration order, with
`pages[i].name = routes[i].name` for every index — no drops and no
duplicates, regardless of how many routes failed. -/
theorem c1_pages_per_route (env : Env) (m0 mf : M) (rep : Report)
    (h : with_body env m0 = (mf, Except.ok rep)) :
    rep.pages.map RouteResult.name = PAGES.map Route.name ∧
    rep.pages.length = PAGES.length := by
  rcases hL : login env m0 with ⟨m1, r1⟩
  cases r1 with
  | error e =>
    simp only [with_body, hL] at h
    simp at h
  | ok u =>
    simp only [with_body, hL] at h
    simp only [bindPrim] at h
    split at h
    · simp at h
    · have hrep := congrArg Prod.snd h
      simp only [Except.ok.injEq] at hrep
      have hpages : rep.pages = (run_routes env PAGES m1).2 := by
        rw [← hrep]
      rw [hpages]
      refine ⟨run_routes_names env PAGES m1, ?_⟩
      have hlen := congrArg List.length (run_routes_names env PAGES m1)
      simpa using hlen

/-- Witness for C1: in the all-success environment the run completes and
the report covers every configured route by name. -/
theorem c1_pages_per_route_witness :
    (with_body env0 mInit).2 = Except.ok report0 ∧
    report0.pages.map RouteResult.name = PAGES.map Route.name := by
  have hw : with_body env0 mInit = ((with_body env0 mInit).1, Except.ok report0) := by
    rfl
  exact ⟨congrArg Prod.snd hw, (c1_pages_per_route env0 mInit _ report0 hw).1⟩

/-- C2 (amended): every recorded route result populates exactly one
variant — either the success fields (summary, screenshot path and actual
URL present, no error key) or the failure fields (an error string, which
is the raw exception text and may be empty, with no summary, screenshot
or actual URL) — never both and never neither. -/
theorem c2_result_variant (env : Env) (pg : Route) (m : M) :
    (((process_route env pg m).2).error = none ∧
      (((process_route env pg m).2).summary).isSome = true ∧
      (((process_route env pg m).2).screenshot).isSome = true ∧
      (((process_route env pg m).2).actualUrl).isSome = true) ∨
    ((((process_route env pg m).2).error).isSome = true ∧
      ((process_route env pg m).2).summary = none ∧
      ((process_route env pg m).2).screenshot = none ∧
      ((process_route env pg m).2).actualUrl = none) := by
  rcases h : route_attempt env pg m with ⟨mf, r⟩
  cases r with
  | error e => right; simp [process_route, h, routeFail]
  | ok s => left; simp [process_route, h]

/-- C2 counterexample: a navigation that raises an exception whose
message is the empty string produces a failure entry whose `error` field
is present but empty — the failure variant does not carry a non-empty
error string on every run. -/
theorem c2_result_variant_counterexample :
    ((process_route envEmptyMsg pg0 mInit).2).error = some "" ∧
    ((process_route envEmptyMsg pg0 mInit).2).summary = none ∧
    ((process_route envEmptyMsg pg0 mInit).2).screenshot = none := by
  refine ⟨rfl, rfl, rfl⟩

/-- Witness for C5: a concrete run in which the first stabilization lands
on a login URL while the intended path is `/dashboard`; recovery happens
exactly once and the route is recorded as a success. -/
theorem c5_session_recovery_witness :
    containsLogin (usLost (mInit.k + 2)) = true ∧
    containsLogin pg0.path = false ∧
    process_route envLost pg0 mInit =
      ({ k := mInit.k + 17, url := usLost (mInit.k + 14),
         evs := mInit.evs ++ recoveryTrace pg0 },
       { name := pg0.name, intendedPath := pg0.path,
         actualUrl := some (usLost (mInit.k + 14)),
         screenshot := some (SCREENSHOTS_DIR ++ "/" ++ pg0.name ++ ".png"),
         summary := some (extract_summary (envLost.doc (mInit.k + 16))),
         error := none }) :=
  ⟨by decide, by decide,
    c5_session_recovery envLost usLost pg0 mInit (fun _ => rfl) (by decide) (by decide)⟩

/-- C6: every exception raised anywhere while processing a single route
— navigation, recovery (re-login and re-navigation), screenshot, or
extraction, i.e. any erroring run of the route's `try` block — is caught
at the orchestrator boundary and converted into a failure entry carrying
the exception's message, leaving the browser state as the attempt left
it; and whenever the initial login succeeds the run reaches the report
write, produces one result per configured route, and records a
navigation attempt for every configured route — one route's failure
never prevents later routes or the report write. -/
theorem c6_failure_isolation :
    (∀ (env : Env) (pg : Route) (m mf : M) (e : String),
        route_attempt env pg m = (mf, Except.error e) →
        process_route env pg m = (mf, routeFail pg e)) ∧
    (∀ (env : Env) (m0 m1 : M) (u : String),
        login env m0 = (m1, Except.ok u) →
        Event.writeReport ∈ ((with_body env m0).1).evs ∧
        ((run_routes env PAGES m1).2).length = PAGES.length ∧
        ∀ pg ∈ PAGES,
          Event.nav (SITE ++ pg.path) 20000 ∈ ((with_body env m0).1).evs) := by
  constructor
  · intro env pg m mf e h
    simp [process_route, h]
  · intro env m0 m1 u h
    rw [with_body_evs_ok env m0 m1 u h]
    refine ⟨by simp, ?_, ?_⟩
    · have hlen := congrArg List.length (run_routes_names env PAGES m1)
      simpa using hlen
    · intro pg hpg
      exact List.mem_append_left _ (run_routes_nav_mem env PAGES m1 pg hpg)

/-- Witness for C6 at concrete inputs: an exception raised at the
extraction step — after a successful navigation, stabilization and
screenshot — is converted into a failure entry with its message, and in
the all-success environment the completed login leads to the report
write with one result per route. -/
theorem c6_failure_isolation_witness :
    route_attempt envExtFail pg0 mInit =
      ({ k := 5, url := dashUrl,
         evs := [Event.nav (SITE ++ "/dashboard") 20000,
           Event.loadState "networkidle" 10000,
           Event.loadState "domcontentloaded" 5000, Event.sleep 2000,
           Event.shot (SCREENSHOTS_DIR ++ "/01-dashboard.png"), Event.extract] },
       Except.error "Evaluation failed: boom") ∧
    process_route envExtFail pg0 mInit =
      ({ k := 5, url := dashUrl,
         evs := [Event.nav (SITE ++ "/dashboard") 20000,
           Event.loadState "networkidle" 10000,
           Event.loadState "domcontentloaded" 5000, Event.sleep 2000,
           Event.shot (SCREENSHOTS_DIR ++ "/01-dashboard.png"), Event.extract] },
       routeFail pg0 "Evaluation failed: boom") ∧
    login env0 mInit =
      ({ k := 9, url := dashUrl, evs := loginEvents }, Except.ok dashUrl) ∧
    Event.writeReport ∈ ((with_body env0 mInit).1).evs ∧
    ((run_routes env0 PAGES { k := 9, url := dashUrl, evs := loginEvents }).2).length =
      PAGES.length := by
  have ha : route_attempt envExtFail pg0 mInit =
      ({ k := 5, url := dashUrl,
         evs := [Event.nav (SITE ++ "/dashboard") 20000,
           Event.loadState "networkidle" 10000,
           Event.loadState "domcontentloaded" 5000, Event.sleep 2000,
           Event.shot (SCREENSHOTS_DIR ++ "/01-dashboard.png"), Event.extract] },
       Except.error "Evaluation failed: boom") := by rfl
  have hlog : login env0 mInit =
      ({ k := 9, url := dashUrl, evs := loginEvents }, Except.ok dashUrl) := by rfl
  have h2 := c6_failure_isolation.2 env0 mInit _ dashUrl hlog
  exact ⟨ha, c6_failure_isolation.1 envExtFail pg0 mInit _ _ ha,
    hlog, h2.1, h2.2.1⟩

/-- C7: the stability wait never propagates a timeout from either of its
two load-state waits — whatever the environment does (including raising
at both waits) it returns a plain state, records both attempts, and
applies the fixed settle delay as its final call, consuming exactly two
oracle outcomes. -/
theorem c7_stability_swallows_timeouts (env : Env) (t : Nat) (m : M) :
    (wait_stable env t m).evs =
      m.evs ++ [Event.loadState "networkidle" t,
        Event.loadState "domcontentloaded" 5000, Event.sleep 2000] ∧
    (wait_stable env t m).k = m.k + 2 :=
  ⟨wait_stable_evs env t m, rfl⟩

/-- C8: if the initial mandatory login raises, the whole run is fatal:
the run's result is that error, and the trace gained only (a prefix of)
login calls — no route navigation, no extraction, and no report write
ever happen. -/
theorem c8_initial_login_fatal (env : Env) (m0 m1 : M) (e : String)
    (h : login env m0 = (m1, Except.error e)) :
    with_body env m0 = (m1, Except.error e) ∧
    ∃ l, m1.evs = m0.evs ++ l ∧ l ⊆ loginEvents ∧
      Event.writeReport ∉ l ∧ Event.extract ∉ l ∧
      ∀ pg ∈ PAGES, Event.nav (SITE ++ pg.path) 20000 ∉ l := by
  constructor
  · simp [with_body, h]
  · obtain ⟨l, hl, hsub⟩ := login_evs env m0
    have h1 : (login env m0).1 = m1 := by rw [h]
    rw [h1] at hl
    refine ⟨l, hl, hsub, ?_, ?_, ?_⟩
    · intro hx
      have hin := hsub hx
      revert hin
      decide
    · intro hx
      have hin := hsub hx
      revert hin
      decide
    · intro pg hpg hx
      have hin := hsub hx
      have hall : ∀ pg ∈ PAGES, Event.nav (SITE ++ pg.path) 20000 ∉ loginEvents := by
        decide
      exact hall pg hpg hin

/-- Witness for C8: with every driver call raising, the initial login
fails at its first navigation and the run aborts with that error. -/
theorem c8_initial_login_fatal_witness :
    login envBad mInit =
      ({ k := 1, url := "", evs := [Event.nav SITE 30000] },
        Except.error "net::ERR_CONNECTION_REFUSED") ∧
    with_body envBad mInit =
      ({ k := 1, url := "", evs := [Event.nav SITE 30000] },
        Except.error "net::ERR_CONNECTION_REFUSED") := by
  have h : login envBad mInit =
      ({ k := 1, url := "", evs := [Event.nav SITE 30000] },
        Except.error "net::ERR_CONNECTION_REFUSED") := by rfl
  exact ⟨h, (c8_initial_login_fatal envBad mInit _ _ h).1⟩

/-- C9: on every exit path of a run — normal completion, per-route
failures, or an exception propagating from route-level processing or the
initial login — the last driver call of the trace is the context
manager's stop, which releases the browser session. -/
theorem c9_session_teardown (env : Env) (m0 : M) :
    ((run_audit env m0).1).evs.getLast? = some Event.stop := by
  show (((with_body env m0).1).evs ++ [Event.stop]).getLast? = some Event.stop
  simp

/-- C10: the authenticator is idempotent — against a session that keeps
presenting the same authenticated (non-login) page, invoking it twice in
succession completes without error both times and both calls return that
non-login URL. -/
theorem c10_login_idempotent (env : Env) (u : String) (m0 : M)
    (hok : ∀ i, env.out i = Outcome.ok u) (hu : containsLogin u = false) :
    (login env m0).2 = Except.ok u ∧
    (login env ((login env m0).1)).2 = Except.ok u ∧
    containsLogin u = false := by
  have h1 := login_ok env (fun _ => u) hok m0
  refine ⟨by rw [h1], ?_, hu⟩
  rw [h1]
  rw [login_ok env (fun _ => u) hok _]

/-- Witness for C10 on the concrete always-authenticated environment. -/
theorem c10_login_idempotent_witness :
    containsLogin dashUrl = false ∧
    (login env0 mInit).2 = Except.ok dashUrl ∧
    (login env0 ((login env0 mInit).1)).2 = Except.ok dashUrl := by
  have h := c10_login_idempotent env0 dashUrl mInit (fun _ => rfl) (by decide)
  exact ⟨by decide, h.1, h.2.1⟩
